import Mathlib

/-!
Verification development for a bidirectional realtime event relay with a
RAG (retrieval-augmented generation) turn-interception side channel.

The embedding below translates the relay server's source into Lean:
the module-level turn flags, the provider-event handler registered on
"server.*", the client message handler with its pre-connect message
queue, the webhook command handler, and the asynchronous
`performRAGProcess` orchestrator.  JavaScript strings are modelled as
Lean `String`; the JS `String.prototype.trim` and
`String.prototype.startsWith` operations are embedded as the
structurally recursive functions `jsTrim` and `strStartsWith` over the
character list of a string.  Effects (sends to the provider, state
writes performed by the orchestrator) are modelled as explicit action
traces in program order.
-/

/-- Embedding of JS `String.prototype.startsWith`. -/
def strStartsWith (s p : String) : Bool :=
  p.data.isPrefixOf s.data

/-- Embedding of JS `String.prototype.trim`: removes whitespace from both ends. -/
def jsTrim (s : String) : String :=
  ⟨((s.data.dropWhile Char.isWhitespace).reverse.dropWhile Char.isWhitespace).reverse⟩

/-- Left-to-right concatenation of a list of strings (used to state transcript accumulation). -/
def concatAll : List String → String
  | [] => ""
  | d :: ds => d ++ concatAll ds

/-- The `item` payload of a provider event (only its `role` field is inspected by the code). -/
structure Item where
  role : String
deriving DecidableEq, Repr

/-- A provider ("server.*") event: a `type` discriminator, an optional `item`
payload and an optional `text` payload (used by transcript delta events).
`none` models an absent (`undefined`) field. -/
structure PEvent where
  type : String
  item : Option Item
  text : Option String
deriving DecidableEq, Repr

/-- The module-level turn flags of the server: `isProcessingRAG`,
`userTranscriptForRAG` and `isRAGActiveThisTurn` (globals shared by all
connections in the source). -/
structure TurnState where
  isProcessingRAG : Bool
  userTranscriptForRAG : String
  isRAGActiveThisTurn : Bool
deriving DecidableEq, Repr

/-- Result of handling one provider event: the updated turn flags, whether
the event was relayed to the client (`ws.send`), and the trimmed transcript
passed to `performRAGProcess` when the handler triggered the RAG flow. -/
structure ProviderStepResult where
  state : TurnState
  relayed : Bool
  ragTriggered : Option String
deriving DecidableEq, Repr

/-- True when the event's `item` has role `assistant` (JS `event.item?.role === 'assistant'`). -/
def isAssistantItem (e : PEvent) : Bool :=
  match e.item with
  | some it => it.role == "assistant"
  | none => false

/-- Classifies provider events suppressed during RAG processing:
`event.type.startsWith('response.') || (event.type === 'conversation.item.created' && event.item?.role === 'assistant')`. -/
def isResponseConstruction (e : PEvent) : Bool :=
  strStartsWith e.type ("response.") ||
    (e.type == "conversation.item.created" && isAssistantItem e)

/-- Embedding of the `client.realtime.on("server.*", ...)` handler of the
RAG-enabled server: blocks assistant response-construction events while
`isProcessingRAG`, resets the transcript and arms the turn on
`input_audio_buffer.speech_started` (when the connection's `ragMode` is on
and no RAG process is active), appends `response.audio_transcript.delta`
text while armed, and on `response.audio_transcript.done` while armed
either triggers `performRAGProcess` with the trimmed transcript (entering
processing and not relaying the done event) or, for an empty transcript,
clears processing and relays the event. -/
def providerHandler (ragMode : Bool) (s : TurnState) (e : PEvent) : ProviderStepResult :=
  if s.isProcessingRAG = true ∧ isResponseConstruction e = true then
    ⟨s, false, none⟩
  else
    let s1 : TurnState :=
      if e.type = "input_audio_buffer.speech_started" then
        if ragMode = true ∧ s.isProcessingRAG = false then
          ⟨s.isProcessingRAG, "", true⟩
        else
          ⟨s.isProcessingRAG, "", false⟩
      else s
    let s2 : TurnState :=
      if s1.isRAGActiveThisTurn = true ∧ e.type = "response.audio_transcript.delta" then
        match e.text with
        | some t => if t = "" then s1 else ⟨s1.isProcessingRAG, s1.userTranscriptForRAG ++ t, s1.isRAGActiveThisTurn⟩
        | none => s1
      else s1
    if s2.isRAGActiveThisTurn = true ∧ e.type = "response.audio_transcript.done" then
      if jsTrim s2.userTranscriptForRAG = "" then
        ⟨⟨false, s2.userTranscriptForRAG, false⟩, true, none⟩
      else
        ⟨⟨true, s2.userTranscriptForRAG, false⟩, false, some (jsTrim s2.userTranscriptForRAG)⟩
    else
      ⟨s2, true, none⟩

/-- Result of running the provider handler over a sequence of events:
final turn flags, the relayed events in order, and the transcripts with
which the RAG process was triggered, in order. -/
structure RunResult where
  state : TurnState
  relayed : List PEvent
  triggers : List String
deriving DecidableEq, Repr

/-- Runs the provider-event handler over a sequence of events in arrival order. -/
def runProvider (ragMode : Bool) (s : TurnState) : List PEvent → RunResult
  | [] => ⟨s, [], []⟩
  | e :: es =>
    let r := providerHandler ragMode s e
    let rest := runProvider ragMode r.state es
    ⟨rest.state, (if r.relayed then [e] else []) ++ rest.relayed,
      (match r.ragTriggered with | some t => [t] | none => []) ++ rest.triggers⟩

/-- The `input_audio_buffer.speech_started` provider event. -/
def speechStartedEv : PEvent := ⟨"input_audio_buffer.speech_started", none, none⟩

/-- A `response.audio_transcript.delta` provider event carrying a text fragment. -/
def transcriptDeltaEv (d : String) : PEvent := ⟨"response.audio_transcript.delta", none, some d⟩

/-- The `response.audio_transcript.done` provider event. -/
def transcriptDoneEv : PEvent := ⟨"response.audio_transcript.done", none, none⟩

/-- Embedding of the plain relay variant's `server.*` handler (the
speech-only server), which sends every provider event to the client in order. -/
def plainServerRelay : List PEvent → List PEvent
  | [] => []
  | e :: es => e :: plainServerRelay es

/-- A parsed client event: only its `type` discriminator is inspected. -/
structure CEvent where
  type : String
deriving DecidableEq, Repr

/-- A raw client message: either it parses to an event or `JSON.parse` throws. -/
inductive ClientMsg
  | parsed (e : CEvent)
  | malformed (raw : String)
deriving DecidableEq, Repr

/-- Embedding of the `messageHandler` closure of the RAG-enabled server:
drops messages that fail to parse, drops a `response.create` client event
while `isRAGActiveThisTurn || isProcessingRAG`, and otherwise forwards the
parsed event to the provider unchanged (`client.realtime.send`).  The
result is the event sent upstream, or `none` when the message was dropped. -/
def messageHandler (s : TurnState) (m : ClientMsg) : Option CEvent :=
  match m with
  | .malformed _ => none
  | .parsed e =>
    if (s.isRAGActiveThisTurn || s.isProcessingRAG) = true ∧ e.type = "response.create" then
      none
    else
      some e

/-- State of one client socket's upstream path: whether the realtime client
reports connected, the `messageQueue` of raw messages buffered before the
connection was ready, and the events sent upstream so far, in order. -/
structure WsState where
  connected : Bool
  messageQueue : List ClientMsg
  sentUpstream : List CEvent
deriving DecidableEq, Repr

/-- Inputs to the upstream path: a raw client message (`ws.on("message")`),
or the realtime connection becoming ready (`await client.connect()`
resolving, after which the queue is drained). -/
inductive WsInput
  | message (m : ClientMsg)
  | connectReady
deriving DecidableEq, Repr

/-- One step of the upstream path: before readiness, messages are pushed
onto `messageQueue`; after readiness, they go through `messageHandler`.
On readiness the queue is drained front to back through `messageHandler`
(`while (messageQueue.length) messageHandler(messageQueue.shift())`). -/
def wsStep (t : TurnState) (w : WsState) (i : WsInput) : WsState :=
  match i with
  | .message m =>
    if w.connected = true then
      ⟨w.connected, w.messageQueue, w.sentUpstream ++ (messageHandler t m).toList⟩
    else
      ⟨w.connected, w.messageQueue ++ [m], w.sentUpstream⟩
  | .connectReady =>
      ⟨true, [], w.sentUpstream ++ w.messageQueue.filterMap (messageHandler t)⟩

/-- Runs the upstream path over a sequence of inputs in arrival order. -/
def runWs (t : TurnState) (w : WsState) (is : List WsInput) : WsState :=
  is.foldl (wsStep t) w

/-- A retrieval result document.  The code reads `doc.content || doc.text ||
JSON.stringify(doc)`; the empty string models an absent (falsy) field. -/
structure Document where
  content : String
  text : String
deriving DecidableEq, Repr

/-- The `JSON.stringify(doc)` fallback used when a document has neither a
truthy `content` nor a truthy `text` field. -/
def stringifyDoc (d : Document) : String :=
  ("\x7b\x22content\x22:\x22") ++ d.content ++ ("\x22,\x22text\x22:\x22") ++ d.text ++ ("\x22\x7d")

/-- The textual payload chosen for a document: `doc.content || doc.text || JSON.stringify(doc)`. -/
def docContentText (d : Document) : String :=
  if d.content = "" then (if d.text = "" then stringifyDoc d else d.text) else d.content

/-- The bounded context built from the retrieved documents: each document's
text truncated to 300 characters, labeled `Document i:`, joined with blank
lines (`searchResults.map((doc, i) => ...).join('\n\n')`). -/
def contextText (docs : List Document) : String :=
  String.intercalate ("\n\n")
    (docs.enum.map (fun p => ("Document ") ++ toString (p.1 + 1) ++ (":\n") ++ (docContentText p.2).take 300))

/-- The fixed utterance injected when retrieval yields no documents. -/
def noResultsText : String :=
  "I couldn\x27t find specific information for that in my documents. How else can I assist you?"

/-- The fixed apologetic utterance injected when the RAG pipeline fails. -/
def ragErrorText : String :=
  "I encountered an issue while trying to access my knowledge base. Please try again or ask something else."

/-- The instructions attached to every injected `response.create` command. -/
def speakInstructions : String := "Speak the provided message naturally."

/-- The system message of the completion request, embedding the document context. -/
def systemPrompt (ctx : String) : String :=
  ("You are a helpful assistant. Use this context to answer the question:\n\n") ++ ctx

/-- Observable actions of the RAG orchestrator, in program order: the
chat-completions HTTP call, writes to `isProcessingRAG`, the
`conversation.item.create` send carrying an injected message, and the
delayed `response.create` send. -/
inductive RagAction
  | callCompletion (system user : String) (maxTokens : Nat) (temperatureTenths : Nat)
  | setProcessing (b : Bool)
  | sendConversationItemCreate (role : String) (text : String)
  | sendResponseCreate (modalities : List String) (instructions : String)
deriving DecidableEq, Repr

/-- Outcome of the chat-completions `fetch`: the request rejects (network
error), resolves with a non-success HTTP status, or resolves successfully
with a parsed list of choice message contents. -/
inductive CompletionOutcome
  | netError (msg : String)
  | httpError (status : Nat) (body : String)
  | ok (choices : List String)
deriving DecidableEq, Repr

/-- Embedding of `performRAGSearch`: the Azure search call either resolves
with a document list or throws; the function catches every error and
returns the empty list in that case. -/
def performRAGSearch (outcome : Except String (List Document)) : List Document :=
  match outcome with
  | .ok docs => docs
  | .error _ => []

/-- True when the completion call fails in the sense of the orchestrator:
the fetch rejects, the status is non-success, or the choice list is empty. -/
def completionFails (c : CompletionOutcome) : Bool :=
  match c with
  | .ok (_ :: _) => false
  | .ok [] => true
  | .netError _ => true
  | .httpError _ _ => true

/-- The `try` block of `performRAGProcess`: the actions performed so far and
the error thrown (if any), which the surrounding `catch` receives. -/
def ragTryBody (searchOutcome : Except String (List Document)) (completion : CompletionOutcome)
    (userQuery : String) : List RagAction × Option String :=
  let searchResults := performRAGSearch searchOutcome
  if searchResults.length = 0 then
    ([.setProcessing false,
      .sendConversationItemCreate ("assistant") noResultsText,
      .sendResponseCreate [("audio")] speakInstructions], none)
  else
    let callAct := RagAction.callCompletion (systemPrompt (contextText searchResults)) userQuery 200 7
    match completion with
    | .netError msg => ([callAct], some msg)
    | .httpError status _ => ([callAct], some (("AI API failed: ") ++ toString status))
    | .ok [] => ([callAct], some ("No AI response received"))
    | .ok (ans :: _) =>
      ([callAct, .setProcessing false,
        .sendConversationItemCreate ("assistant") ans,
        .sendResponseCreate [("audio")] speakInstructions], none)

/-- Embedding of `performRAGProcess`: runs the `try` body and, when it threw,
runs the `catch` block, which clears `isProcessingRAG` and injects the
apologetic fallback turn.  The first component is the action trace in
program order; the second is the exception escaping the function's boundary
(`none` means the promise resolves normally). -/
def performRAGProcess (searchOutcome : Except String (List Document)) (completion : CompletionOutcome)
    (userQuery : String) : List RagAction × Option String :=
  let r := ragTryBody searchOutcome completion userQuery
  match r.2 with
  | none => (r.1, none)
  | some _ =>
    (r.1 ++ [.setProcessing false,
      .sendConversationItemCreate ("assistant") ragErrorText,
      .sendResponseCreate [("audio")] speakInstructions], none)

/-- Value of `isProcessingRAG` after an action trace runs, starting from `b`. -/
def processingAfter (b : Bool) (acts : List RagAction) : Bool :=
  acts.foldl (fun p a => match a with | .setProcessing v => v | _ => p) b

/-- Number of `setProcessing false` writes in a trace. -/
def countSetProcessingFalse (acts : List RagAction) : Nat :=
  acts.countP (fun a => match a with | .setProcessing false => true | _ => false)

/-- The injected texts of a trace: the payloads of its `conversation.item.create` sends, in order. -/
def injectedTexts (acts : List RagAction) : List String :=
  acts.filterMap (fun a => match a with | .sendConversationItemCreate _ t => some t | _ => none)

/-- Per-connection state tracked in `connectionStates`: the `ragMode` flag. -/
structure ConnState where
  ragMode : Bool
deriving DecidableEq, Repr

/-- One iteration of the webhook `rag off` loop body
(`wsConnections.forEach`): sets the connection's `ragMode` to false and,
if a RAG turn is armed or a RAG process is active, resets the global flags
and clears the transcript buffer. -/
def ragOffStep (acc : List ConnState × TurnState) (_c : ConnState) : List ConnState × TurnState :=
  let t := acc.2
  let t2 : TurnState :=
    if t.isRAGActiveThisTurn = true ∨ t.isProcessingRAG = true then ⟨false, "", false⟩ else t
  (acc.1 ++ [⟨false⟩], t2)

/-- Embedding of the webhook handler's `rag off` branch: iterates over all
tracked connections, turning `ragMode` off on each and resetting the global
turn state when a RAG turn is armed or processing. -/
def ragOffHandler (conns : List ConnState) (t : TurnState) : List ConnState × TurnState :=
  conns.foldl ragOffStep ([], t)

/-- Identifies one of two simultaneously connected client/provider pairs. -/
inductive PairId
  | A
  | B
deriving DecidableEq, Repr

/-- A world with two connection pairs: each pair has its own `ragMode`
entry in `connectionStates`, but the turn flags and transcript buffer are
the module-level globals, shared by both pairs. -/
structure World where
  ragModeA : Bool
  ragModeB : Bool
  shared : TurnState
deriving DecidableEq, Repr

/-- The `ragMode` of the given pair's connection. -/
def pairRagMode (w : World) : PairId → Bool
  | .A => w.ragModeA
  | .B => w.ragModeB

/-- Result of one provider event handled on behalf of one pair in a two-pair world. -/
structure WorldStepResult where
  world : World
  relayed : Bool
  ragTriggered : Option String
deriving DecidableEq, Repr

/-- A provider event arriving on pair `p`: runs `providerHandler` with that
pair's `ragMode` against the shared turn flags, writing the result back to
the shared flags. -/
def worldProviderStep (w : World) (p : PairId) (e : PEvent) : WorldStepResult :=
  let r := providerHandler (pairRagMode w p) w.shared e
  ⟨⟨w.ragModeA, w.ragModeB, r.state⟩, r.relayed, r.ragTriggered⟩

/-- A client message arriving on pair `p`: runs `messageHandler` against the
shared turn flags (the handler reads only the shared globals, so the pair
identity is irrelevant). -/
def worldClientStep (w : World) (_p : PairId) (m : ClientMsg) : Option CEvent :=
  messageHandler w.shared m

/-! ## Helper lemmas -/

lemma rc_of_response_type (e : PEvent) (p : String) (h : e.type = p)
    (hp : strStartsWith p ("response.") = true) : isResponseConstruction e = true := by
  simp [isResponseConstruction, h, hp]

lemma providerHandler_suppress (m : Bool) (s : TurnState) (e : PEvent)
    (hp : s.isProcessingRAG = true) (hrc : isResponseConstruction e = true) :
    providerHandler m s e = ⟨s, false, none⟩ := by
  simp [providerHandler, hp, hrc]

lemma providerHandler_relay_nonrc (m : Bool) (s : TurnState) (e : PEvent)
    (hp : s.isProcessingRAG = true) (hrc : isResponseConstruction e = false) :
    (providerHandler m s e).relayed = true := by
  have hdelta : e.type ≠ "response.audio_transcript.delta" := by
    intro hd
    rw [rc_of_response_type e _ hd (by decide)] at hrc
    exact absurd hrc (by decide)
  have hdone : e.type ≠ "response.audio_transcript.done" := by
    intro hd
    rw [rc_of_response_type e _ hd (by decide)] at hrc
    exact absurd hrc (by decide)
  by_cases hstart : e.type = "input_audio_buffer.speech_started"
  · simp [providerHandler, hrc, hp, hstart]
  · simp [providerHandler, hrc, hp, hstart, hdelta, hdone]

/-! ## C1 -/

/-- C1: while `isProcessingRAG` is true, every provider event whose type
indicates assistant response construction (type starting with `response.`,
or a `conversation.item.created` event whose item role is `assistant`) is
not relayed to the client and leaves the turn state unchanged, no matter
how many such events arrive; every provider event of any other type is
relayed normally. -/
theorem c1_processing_suppresses_response_events (m : Bool) (s : TurnState)
    (hp : s.isProcessingRAG = true) :
    (∀ es : List PEvent, (∀ e ∈ es, isResponseConstruction e = true) →
        runProvider m s es = ⟨s, [], []⟩)
    ∧ (∀ e : PEvent, isResponseConstruction e = false →
        (providerHandler m s e).relayed = true) := by
  constructor
  · intro es hall
    induction es with
    | nil => rfl
    | cons e es ih =>
      have h1 := providerHandler_suppress m s e hp (hall e (by simp))
      have h2 := ih (fun x hx => hall x (by simp [hx]))
      simp [runProvider, h1, h2]
  · intro e hrc
    exact providerHandler_relay_nonrc m s e hp hrc

/-- Witness for C1 at a concrete processing state: two response-construction
events are both suppressed with the state unchanged, while a
`speech_stopped` event is relayed. -/
theorem c1_witness :
    runProvider true ⟨true, "", false⟩
        [⟨"response.audio.delta", none, none⟩, ⟨"conversation.item.created", some ⟨"assistant"⟩, none⟩]
      = ⟨⟨true, "", false⟩, [], []⟩
    ∧ (providerHandler true ⟨true, "", false⟩ ⟨"input_audio_buffer.speech_stopped", none, none⟩).relayed = true :=
  ⟨(c1_processing_suppresses_response_events true ⟨true, "", false⟩ rfl).1
      [⟨"response.audio.delta", none, none⟩, ⟨"conversation.item.created", some ⟨"assistant"⟩, none⟩]
      (by decide),
   (c1_processing_suppresses_response_events true ⟨true, "", false⟩ rfl).2
      ⟨"input_audio_buffer.speech_stopped", none, none⟩ (by decide)⟩

/-! ## C2 -/

/-- C2: a parsed client event of type `response.create` is dropped (never
sent to the provider) while `isRAGActiveThisTurn` or `isProcessingRAG` is
true; in every other state, and for every other event type, the parsed
client event is forwarded to the provider unchanged. -/
theorem c2_client_response_create_dropped (s : TurnState) (e : CEvent) :
    ((s.isRAGActiveThisTurn || s.isProcessingRAG) = true → e.type = "response.create" →
        messageHandler s (.parsed e) = none)
    ∧ ((s.isRAGActiveThisTurn || s.isProcessingRAG) = false ∨ e.type ≠ "response.create" →
        messageHandler s (.parsed e) = some e) := by
  constructor
  · intro h1 h2
    simp [messageHandler, h1, h2]
  · intro h
    rcases h with h | h
    · simp [messageHandler, h]
    · simp [messageHandler, h]

/-- Witness for C2: a `response.create` is dropped while processing, the
same event is forwarded in the idle state, and another event type is
forwarded even while a turn is armed. -/
theorem c2_witness :
    messageHandler ⟨true, "", false⟩ (ClientMsg.parsed ⟨"response.create"⟩) = none
    ∧ messageHandler ⟨false, "", false⟩ (ClientMsg.parsed ⟨"response.create"⟩) = some ⟨"response.create"⟩
    ∧ messageHandler ⟨false, "", true⟩ (ClientMsg.parsed ⟨"input_audio_buffer.append"⟩)
        = some ⟨"input_audio_buffer.append"⟩ :=
  ⟨(c2_client_response_create_dropped ⟨true, "", false⟩ ⟨"response.create"⟩).1 (by decide) rfl,
   (c2_client_response_create_dropped ⟨false, "", false⟩ ⟨"response.create"⟩).2 (Or.inl (by decide)),
   (c2_client_response_create_dropped ⟨false, "", true⟩ ⟨"input_audio_buffer.append"⟩).2 (Or.inr (by decide))⟩

/-! ## C3 -/

lemma providerHandler_speechStarted_armed (s : TurnState) (hp : s.isProcessingRAG = false) :
    providerHandler true s speechStartedEv = ⟨⟨false, "", true⟩, true, none⟩ := by
  simp [providerHandler, speechStartedEv, hp]

lemma providerHandler_delta (buf d : String) :
    providerHandler true ⟨false, buf, true⟩ (transcriptDeltaEv d) = ⟨⟨false, buf ++ d, true⟩, true, none⟩ := by
  by_cases hd : d = ""
  · subst hd
    simp [providerHandler, transcriptDeltaEv]
  · simp [providerHandler, transcriptDeltaEv, hd]

lemma providerHandler_done (buf : String) :
    providerHandler true ⟨false, buf, true⟩ transcriptDoneEv =
      if jsTrim buf = "" then ⟨⟨false, buf, false⟩, true, none⟩
      else ⟨⟨true, buf, false⟩, false, some (jsTrim buf)⟩ := by
  by_cases ht : jsTrim buf = "" <;> simp [providerHandler, transcriptDoneEv, ht]

lemma run_deltas_done (ds : List String) : ∀ buf : String,
    runProvider true ⟨false, buf, true⟩ (ds.map transcriptDeltaEv ++ [transcriptDoneEv]) =
      if jsTrim (buf ++ concatAll ds) = "" then
        ⟨⟨false, buf ++ concatAll ds, false⟩, ds.map transcriptDeltaEv ++ [transcriptDoneEv], []⟩
      else
        ⟨⟨true, buf ++ concatAll ds, false⟩, ds.map transcriptDeltaEv, [jsTrim (buf ++ concatAll ds)]⟩ := by
  induction ds with
  | nil =>
    intro buf
    by_cases ht : jsTrim buf = "" <;>
      simp [runProvider, providerHandler_done, concatAll, ht]
  | cons d ds ih =>
    intro buf
    have hstep := providerHandler_delta buf d
    have hrest := ih (buf ++ d)
    rw [String.append_assoc] at hrest
    by_cases ht : jsTrim (buf ++ (d ++ concatAll ds)) = "" <;>
      simp [runProvider, hstep, hrest, concatAll, String.append_assoc, ht]

/-- C3: with the connection's rag mode on and no RAG process active, a
`speech_started` event followed by N transcript delta events with payloads
d1..dN and a transcript `done` event accumulates the transcript buffer to
the in-order concatenation d1++...++dN; if that buffer is non-empty after
trimming, the handler enters processing, does not relay the `done` event,
and triggers the RAG process with the trimmed transcript; otherwise it
returns to idle without triggering retrieval. -/
theorem c3_capture_and_trigger (s : TurnState) (ds : List String)
    (hp : s.isProcessingRAG = false) :
    (runProvider true s (speechStartedEv :: ds.map transcriptDeltaEv ++ [transcriptDoneEv])).state.userTranscriptForRAG
        = concatAll ds
    ∧ (jsTrim (concatAll ds) ≠ "" →
        runProvider true s (speechStartedEv :: ds.map transcriptDeltaEv ++ [transcriptDoneEv])
          = ⟨⟨true, concatAll ds, false⟩, speechStartedEv :: ds.map transcriptDeltaEv, [jsTrim (concatAll ds)]⟩)
    ∧ (jsTrim (concatAll ds) = "" →
        runProvider true s (speechStartedEv :: ds.map transcriptDeltaEv ++ [transcriptDoneEv])
          = ⟨⟨false, concatAll ds, false⟩, speechStartedEv :: ds.map transcriptDeltaEv ++ [transcriptDoneEv], []⟩) := by
  have h0 := providerHandler_speechStarted_armed s hp
  have h1 := run_deltas_done ds ""
  rw [show ("" : String) ++ concatAll ds = concatAll ds by simp] at h1
  have key : runProvider true s (speechStartedEv :: ds.map transcriptDeltaEv ++ [transcriptDoneEv]) =
      if jsTrim (concatAll ds) = "" then
        ⟨⟨false, concatAll ds, false⟩, speechStartedEv :: ds.map transcriptDeltaEv ++ [transcriptDoneEv], []⟩
      else
        ⟨⟨true, concatAll ds, false⟩, speechStartedEv :: ds.map transcriptDeltaEv, [jsTrim (concatAll ds)]⟩ := by
    by_cases ht : jsTrim (concatAll ds) = "" <;>
      simp [runProvider, h0, h1, ht]
  refine ⟨?_, ?_, ?_⟩
  · rw [key]
    by_cases ht : jsTrim (concatAll ds) = "" <;> simp [ht]
  · intro ht
    rw [key, if_neg ht]
  · intro ht
    rw [key, if_pos ht]

/-- Witness for C3: a turn of two deltas starting from a stale buffer yields
the concatenated transcript, triggers the RAG process with the trimmed
transcript, and does not relay the `done` event. -/
theorem c3_witness :
    runProvider true ⟨false, ("junk"), false⟩
        (speechStartedEv :: [("hello "), ("world")].map transcriptDeltaEv ++ [transcriptDoneEv])
      = ⟨⟨true, ("hello world"), false⟩, speechStartedEv :: [("hello "), ("world")].map transcriptDeltaEv,
          [("hello world")]⟩ :=
  (c3_capture_and_trigger ⟨false, ("junk"), false⟩ [("hello "), ("world")] rfl).2.1 (by decide)

/-! ## C4, C5, C6 -/

lemma rag_trace_empty (so : Except String (List Document)) (c : CompletionOutcome) (q : String)
    (h : performRAGSearch so = []) :
    performRAGProcess so c q =
      ([.setProcessing false, .sendConversationItemCreate ("assistant") noResultsText,
        .sendResponseCreate [("audio")] speakInstructions], none) := by
  simp [performRAGProcess, ragTryBody, h]

lemma rag_trace_success (d : Document) (ds : List Document) (ans : String) (rest : List String) (q : String) :
    performRAGProcess (.ok (d :: ds)) (.ok (ans :: rest)) q =
      ([.callCompletion (systemPrompt (contextText (d :: ds))) q 200 7,
        .setProcessing false, .sendConversationItemCreate ("assistant") ans,
        .sendResponseCreate [("audio")] speakInstructions], none) := by
  simp [performRAGProcess, ragTryBody, performRAGSearch]

lemma rag_trace_fail (d : Document) (ds : List Document) (c : CompletionOutcome) (q : String)
    (hc : completionFails c = true) :
    performRAGProcess (.ok (d :: ds)) c q =
      ([.callCompletion (systemPrompt (contextText (d :: ds))) q 200 7,
        .setProcessing false, .sendConversationItemCreate ("assistant") ragErrorText,
        .sendResponseCreate [("audio")] speakInstructions], none) := by
  cases c with
  | netError msg => simp [performRAGProcess, ragTryBody, performRAGSearch]
  | httpError status body => simp [performRAGProcess, ragTryBody, performRAGSearch]
  | ok choices =>
    cases choices with
    | nil => simp [performRAGProcess, ragTryBody, performRAGSearch]
    | cons a r => simp [completionFails] at hc

/-- Counterexample to C4 as stated: when the retrieval call itself fails
(e.g. a network error in the search request — a failure in step 1), the
code swallows the error into an empty result list and injects the
no-results utterance, not the fixed apologetic fallback that the claim
requires for any failure in steps 1 through 4. -/
theorem c4_counterexample :
    (performRAGProcess (.error ("network error")) (.ok [("ignored")]) ("query")).1
      = [.setProcessing false, .sendConversationItemCreate ("assistant") noResultsText,
         .sendResponseCreate [("audio")] speakInstructions]
    ∧ injectedTexts (performRAGProcess (.error ("network error")) (.ok [("ignored")]) ("query")).1
        = [noResultsText]
    ∧ noResultsText ≠ ragErrorText :=
  ⟨rfl, rfl, by decide⟩

/-- C4 (amended): for every transcript and every outcome of the retrieval
and completion calls, `performRAGProcess` never raises past its own
boundary and always clears `isProcessingRAG` exactly once; on any failure
of the completion call after retrieval returned at least one document
(network error, non-success status, empty choice list) it clears
processing and then injects exactly one synthesized assistant turn
carrying the fixed apologetic fallback utterance.  (A retrieval failure is
swallowed by `performRAGSearch` into an empty result list and takes the
no-results path instead.) -/
theorem c4_amended_orchestrator_contract (so : Except String (List Document))
    (c : CompletionOutcome) (q : String) :
    (performRAGProcess so c q).2 = none
    ∧ countSetProcessingFalse (performRAGProcess so c q).1 = 1
    ∧ (∀ (d : Document) (ds : List Document), so = .ok (d :: ds) → completionFails c = true →
        (performRAGProcess so c q).1 =
          [.callCompletion (systemPrompt (contextText (d :: ds))) q 200 7,
           .setProcessing false, .sendConversationItemCreate ("assistant") ragErrorText,
           .sendResponseCreate [("audio")] speakInstructions]) := by
  rcases so with msg | docs
  · rw [rag_trace_empty (.error msg) c q rfl]
    refine ⟨rfl, rfl, ?_⟩
    intro d ds h
    exact absurd h (by simp)
  · cases docs with
    | nil =>
      rw [rag_trace_empty (.ok []) c q rfl]
      refine ⟨rfl, rfl, ?_⟩
      intro d ds h
      simp at h
    | cons d0 ds0 =>
      by_cases hc : completionFails c = true
      · rw [rag_trace_fail d0 ds0 c q hc]
        refine ⟨rfl, by simp [countSetProcessingFalse], ?_⟩
        intro d ds h _
        have hd : d0 = d ∧ ds0 = ds := by simpa using h
        rw [hd.1, hd.2]
      · cases c with
        | netError msg => simp [completionFails] at hc
        | httpError status body => simp [completionFails] at hc
        | ok choices =>
          cases choices with
          | nil => simp [completionFails] at hc
          | cons a r =>
            rw [rag_trace_success d0 ds0 a r q]
            refine ⟨rfl, by simp [countSetProcessingFalse], ?_⟩
            intro d ds _ hfail
            simp [completionFails] at hfail

/-- Witness for C4 (amended) at a non-success completion status. -/
theorem c4_witness :
    (performRAGProcess (.ok [⟨("alpha"), ("")⟩]) (.httpError 500 ("boom")) ("what")).2 = none
    ∧ countSetProcessingFalse (performRAGProcess (.ok [⟨("alpha"), ("")⟩]) (.httpError 500 ("boom")) ("what")).1 = 1
    ∧ (performRAGProcess (.ok [⟨("alpha"), ("")⟩]) (.httpError 500 ("boom")) ("what")).1 =
        [.callCompletion (systemPrompt (contextText [⟨("alpha"), ("")⟩])) ("what") 200 7,
         .setProcessing false, .sendConversationItemCreate ("assistant") ragErrorText,
         .sendResponseCreate [("audio")] speakInstructions] :=
  ⟨(c4_amended_orchestrator_contract (.ok [⟨("alpha"), ("")⟩]) (.httpError 500 ("boom")) ("what")).1,
   (c4_amended_orchestrator_contract (.ok [⟨("alpha"), ("")⟩]) (.httpError 500 ("boom")) ("what")).2.1,
   (c4_amended_orchestrator_contract (.ok [⟨("alpha"), ("")⟩]) (.httpError 500 ("boom")) ("what")).2.2
     ⟨("alpha"), ("")⟩ [] rfl rfl⟩

/-- C5: when retrieval yields zero documents, `isProcessingRAG` is cleared
first and only then is exactly one synthesized assistant turn carrying the
fixed no-results utterance injected; processing ends false and the
completion capability is never called. -/
theorem c5_empty_retrieval_fallback (so : Except String (List Document)) (c : CompletionOutcome)
    (q : String) (h : performRAGSearch so = []) :
    (performRAGProcess so c q).1 =
      [.setProcessing false, .sendConversationItemCreate ("assistant") noResultsText,
       .sendResponseCreate [("audio")] speakInstructions]
    ∧ injectedTexts (performRAGProcess so c q).1 = [noResultsText]
    ∧ processingAfter true (performRAGProcess so c q).1 = false
    ∧ ∀ sys u mt tp, RagAction.callCompletion sys u mt tp ∉ (performRAGProcess so c q).1 := by
  rw [rag_trace_empty so c q h]
  refine ⟨rfl, rfl, rfl, ?_⟩
  intro sys u mt tp
  simp

/-- Witness for C5 at a concrete empty retrieval result. -/
theorem c5_witness :
    (performRAGProcess (.ok []) (.ok [("x")]) ("hello")).1 =
      [.setProcessing false, .sendConversationItemCreate ("assistant") noResultsText,
       .sendResponseCreate [("audio")] speakInstructions]
    ∧ processingAfter true (performRAGProcess (.ok []) (.ok [("x")]) ("hello")).1 = false :=
  ⟨(c5_empty_retrieval_fallback (.ok []) (.ok [("x")]) ("hello") rfl).1,
   (c5_empty_retrieval_fallback (.ok []) (.ok [("x")]) ("hello") rfl).2.2.1⟩

/-- C6: with at least one retrieved document and a successful completion
with a non-empty answer, the orchestrator calls the completion capability
with a system instruction embedding the context built from each document's
text truncated to 300 characters, labeled by ordinal position and joined by
blank lines, a user turn equal to the transcript, a 200-token cap and
temperature 0.7, then clears processing and injects exactly one synthesized
assistant turn carrying the completion's text. -/
theorem c6_success_injection (d : Document) (ds : List Document) (ans : String)
    (rest : List String) (q : String) (_hans : ans ≠ "") :
    (performRAGProcess (.ok (d :: ds)) (.ok (ans :: rest)) q).1 =
      [.callCompletion
          (systemPrompt (String.intercalate ("\n\n")
            ((d :: ds).enum.map
              (fun p => ("Document ") ++ toString (p.1 + 1) ++ (":\n") ++ (docContentText p.2).take 300))))
          q 200 7,
       .setProcessing false, .sendConversationItemCreate ("assistant") ans,
       .sendResponseCreate [("audio")] speakInstructions]
    ∧ injectedTexts (performRAGProcess (.ok (d :: ds)) (.ok (ans :: rest)) q).1 = [ans]
    ∧ processingAfter true (performRAGProcess (.ok (d :: ds)) (.ok (ans :: rest)) q).1 = false := by
  rw [rag_trace_success d ds ans rest q]
  exact ⟨rfl, rfl, rfl⟩

/-- Witness for C6 at two concrete documents and a concrete answer. -/
theorem c6_witness :
    injectedTexts (performRAGProcess (.ok [⟨("doc one"), ("")⟩, ⟨(""), ("second")⟩])
        (.ok [("the answer")]) ("question")).1 = [("the answer")]
    ∧ processingAfter true (performRAGProcess (.ok [⟨("doc one"), ("")⟩, ⟨(""), ("second")⟩])
        (.ok [("the answer")]) ("question")).1 = false :=
  ⟨(c6_success_injection ⟨("doc one"), ("")⟩ [⟨(""), ("second")⟩] ("the answer") [] ("question")
      (by decide)).2.1,
   (c6_success_injection ⟨("doc one"), ("")⟩ [⟨(""), ("second")⟩] ("the answer") [] ("question")
      (by decide)).2.2⟩

/-! ## C7 -/

lemma providerHandler_inactive (s : TurnState) (e : PEvent)
    (ha : s.isRAGActiveThisTurn = false) (hp : s.isProcessingRAG = false) :
    (providerHandler false s e).relayed = true
    ∧ (providerHandler false s e).ragTriggered = none
    ∧ (providerHandler false s e).state.isRAGActiveThisTurn = false
    ∧ (providerHandler false s e).state.isProcessingRAG = false := by
  by_cases hstart : e.type = "input_audio_buffer.speech_started"
  · simp [providerHandler, hp, hstart]
  · simp [providerHandler, hp, ha, hstart]

lemma run_inactive (es : List PEvent) : ∀ s : TurnState,
    s.isRAGActiveThisTurn = false → s.isProcessingRAG = false →
    (runProvider false s es).relayed = es
    ∧ (runProvider false s es).triggers = []
    ∧ (runProvider false s es).state.isRAGActiveThisTurn = false
    ∧ (runProvider false s es).state.isProcessingRAG = false := by
  induction es with
  | nil =>
    intro s ha hp
    exact ⟨rfl, rfl, ha, hp⟩
  | cons e es ih =>
    intro s ha hp
    obtain ⟨h1, h2, h3, h4⟩ := providerHandler_inactive s e ha hp
    obtain ⟨i1, i2, i3, i4⟩ := ih (providerHandler false s e).state h3 h4
    refine ⟨?_, ?_, ?_, ?_⟩
    · simp [runProvider, h1, h2, i1]
    · simp [runProvider, h1, h2, i2]
    · simp only [runProvider]
      exact i3
    · simp only [runProvider]
      exact i4

lemma plainServerRelay_eq (es : List PEvent) : plainServerRelay es = es := by
  induction es with
  | nil => rfl
  | cons e es ih => simp [plainServerRelay, ih]

/-- C7: while the connection's rag mode is false, starting from the idle
turn state, the interceptor never enters the armed or processing states at
any point of the event sequence, triggers no retrieval, and relays every
provider event unchanged — exactly the behaviour of the plain relay
variant. -/
theorem c7_identity_when_rag_disabled (s : TurnState) (es : List PEvent)
    (ha : s.isRAGActiveThisTurn = false) (hp : s.isProcessingRAG = false) :
    (∀ n : Nat, (runProvider false s (es.take n)).state.isRAGActiveThisTurn = false
      ∧ (runProvider false s (es.take n)).state.isProcessingRAG = false)
    ∧ (runProvider false s es).relayed = plainServerRelay es
    ∧ (runProvider false s es).triggers = [] := by
  refine ⟨?_, ?_, ?_⟩
  · intro n
    obtain ⟨_, _, h3, h4⟩ := run_inactive (es.take n) s ha hp
    exact ⟨h3, h4⟩
  · rw [plainServerRelay_eq]
    exact (run_inactive es s ha hp).1
  · exact (run_inactive es s ha hp).2.1

/-- Witness for C7: a full speech turn with rag mode off is relayed
identically and never arms or processes. -/
theorem c7_witness :
    (runProvider false ⟨false, "", false⟩
        [speechStartedEv, transcriptDeltaEv ("hi"), transcriptDoneEv, ⟨"response.created", none, none⟩]).relayed
      = plainServerRelay [speechStartedEv, transcriptDeltaEv ("hi"), transcriptDoneEv, ⟨"response.created", none, none⟩]
    ∧ (runProvider false ⟨false, "", false⟩
        ([speechStartedEv, transcriptDeltaEv ("hi"), transcriptDoneEv, ⟨"response.created", none, none⟩].take 2)).state.isProcessingRAG
      = false :=
  ⟨(c7_identity_when_rag_disabled ⟨false, "", false⟩
      [speechStartedEv, transcriptDeltaEv ("hi"), transcriptDoneEv, ⟨"response.created", none, none⟩] rfl rfl).2.1,
   ((c7_identity_when_rag_disabled ⟨false, "", false⟩
      [speechStartedEv, transcriptDeltaEv ("hi"), transcriptDoneEv, ⟨"response.created", none, none⟩] rfl rfl).1 2).2⟩

/-! ## C8 -/

lemma ragOff_fold_reset (cs : List ConnState) : ∀ acc : List ConnState,
    cs.foldl ragOffStep (acc, (⟨false, "", false⟩ : TurnState)) =
      (acc ++ cs.map (fun _ => ⟨false⟩), ⟨false, "", false⟩) := by
  induction cs with
  | nil =>
    intro acc
    simp
  | cons c cs ih =>
    intro acc
    rw [List.foldl_cons]
    have hstep : ragOffStep (acc, (⟨false, "", false⟩ : TurnState)) c
        = (acc ++ [⟨false⟩], ⟨false, "", false⟩) := by
      simp [ragOffStep]
    rw [hstep, ih]
    simp

lemma processingAfter_rag (so : Except String (List Document)) (c : CompletionOutcome)
    (q : String) (b : Bool) : processingAfter b (performRAGProcess so c q).1 = false := by
  rcases so with msg | docs
  · rw [rag_trace_empty (.error msg) c q rfl]
    rfl
  · cases docs with
    | nil =>
      rw [rag_trace_empty (.ok []) c q rfl]
      rfl
    | cons d ds =>
      by_cases hc : completionFails c = true
      · rw [rag_trace_fail d ds c q hc]
        rfl
      · cases c with
        | netError m => simp [completionFails] at hc
        | httpError st bd => simp [completionFails] at hc
        | ok choices =>
          cases choices with
          | nil => simp [completionFails] at hc
          | cons a r =>
            rw [rag_trace_success d ds a r q]
            rfl

/-- Counterexample to C8 as stated: the reset runs inside the
per-connection loop, so with zero tracked connections a `rag off` command
received while processing leaves the turn state untouched. -/
theorem c8_counterexample :
    ragOffHandler [] ⟨true, ("leftover"), false⟩ = ([], ⟨true, ("leftover"), false⟩)
    ∧ (ragOffHandler [] ⟨true, ("leftover"), false⟩).2.isProcessingRAG = true :=
  ⟨rfl, rfl⟩

/-- C8 (amended): whenever the webhook `rag off` command is received while a
RAG turn is armed or a RAG process is active and at least one client
connection is tracked, the handler resets the turn state —
`isRAGActiveThisTurn` and `isProcessingRAG` to false, transcript buffer
cleared — and turns `ragMode` off on every tracked connection, returning
normally; an already dispatched RAG process is not cancelled, but its
completion callback leaves `isProcessingRAG` false idempotently from any
prior value.  (With zero tracked connections the loop body never runs and
the turn state is left unchanged.) -/
theorem c8_amended_rag_off_reset (c0 : ConnState) (cs : List ConnState) (t : TurnState)
    (h : t.isRAGActiveThisTurn = true ∨ t.isProcessingRAG = true) :
    (ragOffHandler (c0 :: cs) t).2 = ⟨false, "", false⟩
    ∧ (∀ cc ∈ (ragOffHandler (c0 :: cs) t).1, cc.ragMode = false)
    ∧ (∀ (so : Except String (List Document)) (c : CompletionOutcome) (q : String) (b : Bool),
        processingAfter b (performRAGProcess so c q).1 = false) := by
  have hstep : ragOffStep ([], t) c0 = ([⟨false⟩], ⟨false, "", false⟩) := by
    simp [ragOffStep, if_pos h]
  have hfold := ragOff_fold_reset cs [⟨false⟩]
  refine ⟨?_, ?_, fun so c q b => processingAfter_rag so c q b⟩
  · rw [ragOffHandler, List.foldl_cons, hstep, hfold]
  · rw [ragOffHandler, List.foldl_cons, hstep, hfold]
    intro cc hcc
    rw [List.mem_append] at hcc
    rcases hcc with h1 | h1
    · rw [List.mem_singleton] at h1
      rw [h1]
    · rw [List.mem_map] at h1
      obtain ⟨x, _, hx⟩ := h1
      rw [← hx]

/-- Witness for C8 (amended): one tracked connection, processing active
with a stale buffer; the state is reset and the dispatched RAG process's
callback keeps processing false. -/
theorem c8_witness :
    (ragOffHandler [⟨true⟩] ⟨true, ("stale"), false⟩).2 = ⟨false, "", false⟩
    ∧ processingAfter (ragOffHandler [⟨true⟩] ⟨true, ("stale"), false⟩).2.isProcessingRAG
        (performRAGProcess (.ok []) (.ok []) ("q")).1 = false :=
  ⟨(c8_amended_rag_off_reset ⟨true⟩ [] ⟨true, ("stale"), false⟩ (Or.inr rfl)).1,
   (c8_amended_rag_off_reset ⟨true⟩ [] ⟨true, ("stale"), false⟩ (Or.inr rfl)).2.2
      (.ok []) (.ok []) ("q") _⟩

/-! ## C9 -/

lemma runWs_cons (t : TurnState) (w : WsState) (i : WsInput) (is : List WsInput) :
    runWs t w (i :: is) = runWs t (wsStep t w i) is := rfl

lemma runWs_append (t : TurnState) (w : WsState) (xs ys : List WsInput) :
    runWs t w (xs ++ ys) = runWs t (runWs t w xs) ys := by
  simp [runWs, List.foldl_append]

lemma runWs_preconnect (pre : List ClientMsg) : ∀ (t : TurnState) (q : List ClientMsg) (sent : List CEvent),
    runWs t ⟨false, q, sent⟩ (pre.map WsInput.message) = ⟨false, q ++ pre, sent⟩ := by
  induction pre with
  | nil =>
    intro t q sent
    simp [runWs]
  | cons m pre ih =>
    intro t q sent
    have hstep : wsStep t ⟨false, q, sent⟩ (WsInput.message m) = ⟨false, q ++ [m], sent⟩ := by
      simp [wsStep]
    rw [List.map_cons, runWs_cons, hstep, ih]
    simp

lemma runWs_postconnect (post : List ClientMsg) : ∀ (t : TurnState) (sent : List CEvent),
    runWs t ⟨true, [], sent⟩ (post.map WsInput.message)
      = ⟨true, [], sent ++ post.filterMap (messageHandler t)⟩ := by
  induction post with
  | nil =>
    intro t sent
    simp [runWs]
  | cons m post ih =>
    intro t sent
    have hstep : wsStep t ⟨true, [], sent⟩ (WsInput.message m)
        = ⟨true, [], sent ++ (messageHandler t m).toList⟩ := by
      simp [wsStep]
    rw [List.map_cons, runWs_cons, hstep, ih]
    cases hm : messageHandler t m <;> simp [List.filterMap_cons, hm]

/-- Counterexample to C9 as stated: a client message that fails to parse is
buffered before readiness but silently dropped during the drain, so it is
never delivered upstream — "none lost" fails. -/
theorem c9_counterexample :
    (runWs ⟨false, "", false⟩ ⟨false, [], []⟩ [WsInput.message (ClientMsg.malformed ("oops"))]).messageQueue
      = [ClientMsg.malformed ("oops")]
    ∧ runWs ⟨false, "", false⟩ ⟨false, [], []⟩
        [WsInput.message (ClientMsg.malformed ("oops")), WsInput.connectReady]
      = ⟨true, [], []⟩ :=
  ⟨rfl, rfl⟩

/-- C9 (amended): client messages arriving before the connection is ready
are buffered in arrival order, and on readiness the queue is drained front
to back through the message handler: exactly those buffered messages that
parse and are not response-create commands suppressed by the RAG state are
delivered upstream, in original order, none duplicated, all before any
message arriving after readiness (which is handled the same way). -/
theorem c9_amended_queue_replay (t : TurnState) (pre post : List ClientMsg) :
    runWs t ⟨false, [], []⟩ (pre.map WsInput.message) = ⟨false, pre, []⟩
    ∧ runWs t ⟨false, [], []⟩ (pre.map WsInput.message ++ WsInput.connectReady :: post.map WsInput.message)
        = ⟨true, [], pre.filterMap (messageHandler t) ++ post.filterMap (messageHandler t)⟩ := by
  have h1 : runWs t ⟨false, [], []⟩ (pre.map WsInput.message) = ⟨false, pre, []⟩ := by
    rw [runWs_preconnect pre t [] []]
    simp
  refine ⟨h1, ?_⟩
  rw [runWs_append, h1, runWs_cons]
  have hdrain : wsStep t ⟨false, pre, []⟩ WsInput.connectReady
      = ⟨true, [], pre.filterMap (messageHandler t)⟩ := by
    simp [wsStep]
  rw [hdrain, runWs_postconnect post t _]

/-! ## C10 -/

lemma providerHandler_done_any (m : Bool) (s : TurnState) (ha : s.isRAGActiveThisTurn = true)
    (hp : s.isProcessingRAG = false) (hb : jsTrim s.userTranscriptForRAG ≠ "") :
    providerHandler m s transcriptDoneEv
      = ⟨⟨true, s.userTranscriptForRAG, false⟩, false, some (jsTrim s.userTranscriptForRAG)⟩ := by
  simp [providerHandler, transcriptDoneEv, hp, ha, hb]

lemma providerHandler_speechStarted_resets (m : Bool) (s : TurnState) :
    (providerHandler m s speechStartedEv).state.userTranscriptForRAG = "" := by
  have hrc : isResponseConstruction ⟨"input_audio_buffer.speech_started", none, none⟩ = false := by decide
  by_cases hm : m = true ∧ s.isProcessingRAG = false
  · simp [providerHandler, speechStartedEv, hrc, hm]
  · simp [providerHandler, speechStartedEv, hrc, hm]

/-- C10: the turn flags and the transcript buffer are process-wide globals
shared by every connection pair: when pair A's finished turn puts the
shared state into processing, assistant response-construction provider
events arriving on pair B are suppressed and a `response.create` client
command on pair B is dropped, whatever B's own rag mode is; and any pair's
`speech_started` event resets the shared transcript buffer another pair
may have been accumulating. -/
theorem c10_turn_state_is_process_wide (w : World)
    (ha : w.shared.isRAGActiveThisTurn = true) (hp : w.shared.isProcessingRAG = false)
    (hb : jsTrim w.shared.userTranscriptForRAG ≠ "") :
    (worldProviderStep w .A transcriptDoneEv).world.shared.isProcessingRAG = true
    ∧ (∀ e : PEvent, isResponseConstruction e = true →
        (worldProviderStep (worldProviderStep w .A transcriptDoneEv).world .B e).relayed = false)
    ∧ (∀ e : CEvent, e.type = "response.create" →
        worldClientStep (worldProviderStep w .A transcriptDoneEv).world .B (.parsed e) = none)
    ∧ (∀ w2 : World, (worldProviderStep w2 .B speechStartedEv).world.shared.userTranscriptForRAG = "") := by
  have hA := providerHandler_done_any w.ragModeA w.shared ha hp hb
  have hsh : (worldProviderStep w .A transcriptDoneEv).world.shared
      = ⟨true, w.shared.userTranscriptForRAG, false⟩ := by
    simp [worldProviderStep, pairRagMode, hA]
  refine ⟨?_, ?_, ?_, ?_⟩
  · rw [hsh]
  · intro e hrc
    have hsup := providerHandler_suppress w.ragModeB
      ⟨true, w.shared.userTranscriptForRAG, false⟩ e rfl hrc
    simp [worldProviderStep, hA, pairRagMode, hsup]
  · intro e he
    simp [worldClientStep, hsh, messageHandler, he]
  · intro w2
    simp only [worldProviderStep]
    exact providerHandler_speechStarted_resets (pairRagMode w2 .B) w2.shared

/-- Witness for C10: pair A finishes a turn with rag mode off on pair B;
B's response event is suppressed, B's response-create is dropped, and B's
later speech start wipes a buffer accumulated on behalf of A. -/
theorem c10_witness :
    (worldProviderStep ⟨true, false, ⟨false, ("what is x"), true⟩⟩ .A transcriptDoneEv).world.shared.isProcessingRAG = true
    ∧ (worldProviderStep (worldProviderStep ⟨true, false, ⟨false, ("what is x"), true⟩⟩ .A transcriptDoneEv).world .B
        ⟨"response.audio.delta", none, none⟩).relayed = false
    ∧ worldClientStep (worldProviderStep ⟨true, false, ⟨false, ("what is x"), true⟩⟩ .A transcriptDoneEv).world .B
        (.parsed ⟨"response.create"⟩) = none
    ∧ (worldProviderStep ⟨true, false, ⟨false, ("accumulated for A"), true⟩⟩ .B speechStartedEv).world.shared.userTranscriptForRAG = "" :=
  ⟨(c10_turn_state_is_process_wide ⟨true, false, ⟨false, ("what is x"), true⟩⟩ rfl rfl (by decide)).1,
   (c10_turn_state_is_process_wide ⟨true, false, ⟨false, ("what is x"), true⟩⟩ rfl rfl (by decide)).2.1
      ⟨"response.audio.delta", none, none⟩ (by decide),
   (c10_turn_state_is_process_wide ⟨true, false, ⟨false, ("what is x"), true⟩⟩ rfl rfl (by decide)).2.2.1
      ⟨"response.create"⟩ rfl,
   (c10_turn_state_is_process_wide ⟨true, false, ⟨false, ("what is x"), true⟩⟩ rfl rfl (by decide)).2.2.2
      ⟨true, false, ⟨false, ("accumulated for A"), true⟩⟩⟩
